import Mathlib

/-!
Shallow embedding of `src/complete_download_manager.py` (a segmented
download manager) and proofs about its segment planner, reassembler,
cancellation/pause handling, retry policy and probe logic.

Conventions of the embedding:
* Byte positions are `Int` (Python ints; `end_byte` may in principle go
  negative through `start + segment_size - 1`), byte counts are `Nat`.
* File contents are `List Nat` (a sequence of bytes).
* The mutable `is_paused` / `is_cancelled` flags, written by the UI
  thread and read by the worker, are modelled as a schedule of
  observations (`List Flags`): each point in the code that reads the
  flags consumes one observation; once the schedule is exhausted the
  flags read as `false` (their initial values).
* Network and filesystem effects are passed in explicitly: the chunks a
  streamed response yields, whether a request raises, the contents of
  the per-segment temporary sink files.
-/

/-- `DownloadStatus` enum (lines 21-27 of the source). -/
inductive DownloadStatus where
  | PENDING
  | DOWNLOADING
  | PAUSED
  | COMPLETED
  | FAILED
  | CANCELLED
deriving DecidableEq, Repr

/-- `DownloadSegment` dataclass (lines 29-34): a planned byte range
`[start_byte, end_byte]` plus the fetcher-maintained progress fields. -/
structure DownloadSegment where
  start_byte : Int
  end_byte : Int
  downloaded_bytes : Nat := 0
  is_complete : Bool := false
deriving DecidableEq, Repr

/-- `DownloadWorker.create_segments` (lines 107-117): if `total_size <= 0`
a single `(0, 0)` placeholder segment; otherwise `segments_count` ranges of
`segment_size = total_size // segments_count` bytes, the last one ending at
`total_size - 1`. -/
def create_segments (total_size : Nat) (segments_count : Nat) : List DownloadSegment :=
  if total_size ≤ 0 then
    [{ start_byte := 0, end_byte := 0 }]
  else
    let segment_size := total_size / segments_count
    (List.range segments_count).map (fun (i : Nat) =>
      let start : Int := (i : Int) * (segment_size : Int)
      { start_byte := start,
        end_byte :=
          if i < segments_count - 1 then start + (segment_size : Int) - 1
          else (total_size : Int) - 1 })

example : create_segments 10 3 =
    [{ start_byte := 0, end_byte := 2 },
     { start_byte := 3, end_byte := 5 },
     { start_byte := 6, end_byte := 9 }] := by decide

example : create_segments 0 4 = [{ start_byte := 0, end_byte := 0 }] := by decide

/-- For positive `total_size` the planner returns `segments_count` segments. -/
theorem create_segments_length (total_size segments_count : Nat) (h : 0 < total_size) :
    (create_segments total_size segments_count).length = segments_count := by
  have hne : ¬ total_size ≤ 0 := by omega
  simp only [create_segments, if_neg hne, List.length_map, List.length_range]

/-- Element-wise description of the planner output: segment `i` starts at
`i * (total_size / segments_count)` and ends one byte before the next start,
except the last segment which ends at `total_size - 1`. -/
theorem create_segments_getElem (total_size segments_count i : Nat) (h : 0 < total_size)
    (hi : i < (create_segments total_size segments_count).length) :
    (create_segments total_size segments_count)[i] =
      { start_byte := (i : Int) * ((total_size / segments_count : Nat) : Int),
        end_byte :=
          if i < segments_count - 1 then
            (i : Int) * ((total_size / segments_count : Nat) : Int)
              + ((total_size / segments_count : Nat) : Int) - 1
          else (total_size : Int) - 1 } := by
  have hne : ¬ total_size ≤ 0 := by omega
  simp only [create_segments, if_neg hne, List.getElem_map, List.getElem_range]

/-- C1: for every `total_size` at or above the 1 MiB single-segment threshold
and every requested count `1 ≤ n ≤ 16`, `create_segments` returns `n` segments
that are ordered by index (segment `i` starts at `i * floor(total_size/n)`),
each of size `floor(total_size/n)` except the last, which ends at
`total_size - 1` and absorbs the remainder `total_size % n`; the segments are
non-overlapping, contiguous, each lies inside `[0, total_size - 1]`, and every
byte of `[0, total_size - 1]` is covered by some segment. -/
theorem create_segments_plan (total_size n : Nat)
    (hts : 1024 * 1024 ≤ total_size) (hn1 : 1 ≤ n) (hn16 : n ≤ 16) :
    (create_segments total_size n).length = n
    ∧ (∀ i, ∀ hi : i < (create_segments total_size n).length,
        ((create_segments total_size n)[i]).start_byte
          = (i : Int) * ((total_size / n : Nat) : Int))
    ∧ (∀ i, ∀ hi : i < (create_segments total_size n).length, i + 1 < n →
        ((create_segments total_size n)[i]).end_byte
          = ((create_segments total_size n)[i]).start_byte
              + ((total_size / n : Nat) : Int) - 1)
    ∧ (∀ hl : n - 1 < (create_segments total_size n).length,
        ((create_segments total_size n)[n - 1]).end_byte = (total_size : Int) - 1
        ∧ ((create_segments total_size n)[n - 1]).end_byte + 1
            - ((create_segments total_size n)[n - 1]).start_byte
          = ((total_size / n : Nat) : Int) + ((total_size % n : Nat) : Int))
    ∧ (∀ i, ∀ hi : i < (create_segments total_size n).length,
        0 ≤ ((create_segments total_size n)[i]).start_byte
        ∧ ((create_segments total_size n)[i]).start_byte
            ≤ ((create_segments total_size n)[i]).end_byte
        ∧ ((create_segments total_size n)[i]).end_byte ≤ (total_size : Int) - 1)
    ∧ (∀ i j, ∀ hi : i < (create_segments total_size n).length,
        ∀ hj : j < (create_segments total_size n).length, i < j →
        ((create_segments total_size n)[i]).end_byte
          < ((create_segments total_size n)[j]).start_byte)
    ∧ (∀ i, ∀ hi : i + 1 < (create_segments total_size n).length,
        ((create_segments total_size n)[i + 1]).start_byte
          = ((create_segments total_size n)[i]).end_byte + 1)
    ∧ (∀ b : Int, 0 ≤ b → b ≤ (total_size : Int) - 1 →
        ∃ i, ∃ hi : i < (create_segments total_size n).length,
          ((create_segments total_size n)[i]).start_byte ≤ b
          ∧ b ≤ ((create_segments total_size n)[i]).end_byte) := by
  have hpos : 0 < total_size := by omega
  obtain ⟨m, rfl⟩ : ∃ m, n = m + 1 := ⟨n - 1, by omega⟩
  have hlen := create_segments_length total_size (m + 1) hpos
  have hget := fun i hi => create_segments_getElem total_size (m + 1) i hpos hi
  have hs1 : 1 ≤ total_size / (m + 1) :=
    (Nat.one_le_div_iff (by omega)).mpr (by omega)
  have hns : (m + 1) * (total_size / (m + 1)) ≤ total_size := by
    have h := Nat.div_mul_le_self total_size (m + 1)
    have h2 : (m + 1) * (total_size / (m + 1)) = total_size / (m + 1) * (m + 1) :=
      Nat.mul_comm _ _
    omega
  have hsz : (1 : Int) ≤ ((total_size / (m + 1) : Nat) : Int) := by exact_mod_cast hs1
  have hnsz : ((m : Int) + 1) * ((total_size / (m + 1) : Nat) : Int) ≤ (total_size : Int) := by
    exact_mod_cast hns
  refine ⟨hlen, ?_, ?_, ?_, ?_, ?_, ?_, ?_⟩
  · intro i hi
    rw [hget i hi]
  · intro i hi hilt
    rw [hget i hi]
    have hc : i < m + 1 - 1 := by omega
    simp only [if_pos hc]
  · intro hl
    rw [hget (m + 1 - 1) hl]
    have hc : ¬ (m + 1 - 1 < m + 1 - 1) := by omega
    simp only [if_neg hc]
    refine ⟨trivial, ?_⟩
    have hdm := Nat.div_add_mod total_size (m + 1)
    have hdmz : ((m : Int) + 1) * ((total_size / (m + 1) : Nat) : Int)
        + ((total_size % (m + 1) : Nat) : Int) = (total_size : Int) := by
      exact_mod_cast hdm
    have hm1 : ((m + 1 - 1 : Nat) : Int) = (m : Int) := by push_cast; omega
    rw [hm1]
    linarith
  · intro i hi
    rw [hget i hi]
    have him : i ≤ m := by rw [hlen] at hi; omega
    have hmono : ((i : Int) + 1) * ((total_size / (m + 1) : Nat) : Int)
        ≤ ((m : Int) + 1) * ((total_size / (m + 1) : Nat) : Int) := by
      have := Nat.mul_le_mul_right (total_size / (m + 1)) (show i + 1 ≤ m + 1 by omega)
      exact_mod_cast this
    refine ⟨?_, ?_, ?_⟩
    · positivity
    · by_cases hc : i < m + 1 - 1
      · simp only [if_pos hc]
        linarith
      · simp only [if_neg hc]
        have hieq : i = m := by omega
        subst hieq
        linarith
    · by_cases hc : i < m + 1 - 1
      · simp only [if_pos hc]
        linarith
      · simp only [if_neg hc]
        exact le_refl _
  · intro i j hi hj hij
    rw [hget i hi, hget j hj]
    have hjm : j ≤ m := by rw [hlen] at hj; omega
    have hc : i < m + 1 - 1 := by rw [hlen] at hj; omega
    simp only [if_pos hc]
    have hmono : ((i : Int) + 1) * ((total_size / (m + 1) : Nat) : Int)
        ≤ (j : Int) * ((total_size / (m + 1) : Nat) : Int) := by
      have := Nat.mul_le_mul_right (total_size / (m + 1)) (show i + 1 ≤ j by omega)
      exact_mod_cast this
    linarith
  · intro i hi
    rw [hget (i + 1) hi, hget i (Nat.lt_of_succ_lt hi)]
    have hc : i < m + 1 - 1 := by rw [hlen] at hi; omega
    simp only [if_pos hc]
    push_cast
    ring
  · intro b hb0 hbts
    have hbn : ((b.toNat : Nat) : Int) = b := Int.toNat_of_nonneg hb0
    have hbnlt : b.toNat < total_size := by omega
    by_cases hcase : b.toNat / (total_size / (m + 1)) < m
    · refine ⟨b.toNat / (total_size / (m + 1)), by rw [hlen]; omega, ?_, ?_⟩
      · rw [hget _ (by rw [hlen]; omega)]
        have h := Nat.div_mul_le_self b.toNat (total_size / (m + 1))
        have hz : ((b.toNat / (total_size / (m + 1)) * (total_size / (m + 1)) : Nat) : Int)
            ≤ ((b.toNat : Nat) : Int) := by exact_mod_cast h
        rw [Nat.cast_mul] at hz
        simp only
        linarith
      · rw [hget _ (by rw [hlen]; omega)]
        have hc2 : b.toNat / (total_size / (m + 1)) < m + 1 - 1 := by omega
        simp only [if_pos hc2]
        have hdm := Nat.div_add_mod b.toNat (total_size / (m + 1))
        have hmod := Nat.mod_lt b.toNat (show 0 < total_size / (m + 1) by omega)
        have hnat : b.toNat < b.toNat / (total_size / (m + 1)) * (total_size / (m + 1))
            + (total_size / (m + 1)) := by
          have hcomm : (total_size / (m + 1)) * (b.toNat / (total_size / (m + 1)))
              = b.toNat / (total_size / (m + 1)) * (total_size / (m + 1)) := Nat.mul_comm _ _
          omega
        have hnz : ((b.toNat : Nat) : Int)
            < ((b.toNat / (total_size / (m + 1)) * (total_size / (m + 1))
                + (total_size / (m + 1)) : Nat) : Int) := by exact_mod_cast hnat
        rw [Nat.cast_add, Nat.cast_mul] at hnz
        linarith
    · refine ⟨m, by rw [hlen]; omega, ?_, ?_⟩
      · rw [hget _ (by rw [hlen]; omega)]
        have hle : m ≤ b.toNat / (total_size / (m + 1)) := by omega
        have h1 : m * (total_size / (m + 1))
            ≤ b.toNat / (total_size / (m + 1)) * (total_size / (m + 1)) :=
          Nat.mul_le_mul_right _ hle
        have h2 := Nat.div_mul_le_self b.toNat (total_size / (m + 1))
        have hz : ((m * (total_size / (m + 1)) : Nat) : Int) ≤ ((b.toNat : Nat) : Int) := by
          exact_mod_cast le_trans h1 h2
        rw [Nat.cast_mul] at hz
        simp only
        linarith
      · rw [hget _ (by rw [hlen]; omega)]
        have hc2 : ¬ (m < m + 1 - 1) := by omega
        simp only [if_neg hc2]
        omega

/-- Witness for C1: the planner theorem applied at `total_size = 1048581`,
`n = 3`. -/
theorem create_segments_plan_witness :
    1024 * 1024 ≤ 1048581 ∧ 1 ≤ 3 ∧ 3 ≤ 16 ∧ (create_segments 1048581 3).length = 3 :=
  ⟨by norm_num, by norm_num, by norm_num,
    (create_segments_plan 1048581 3 (by norm_num) (by norm_num) (by norm_num)).1⟩

/-- One observation of the worker's shared mutable flags `is_paused` /
`is_cancelled` (lines 47-48, written by `pause`/`resume`/`cancel`,
lines 57-67). Each point in the worker code that reads the flags consumes
one observation from a schedule `List Flags`; an exhausted schedule reads
as `⟨false, false⟩`, the initial values. -/
structure Flags where
  is_paused : Bool
  is_cancelled : Bool
deriving DecidableEq, Repr

/-- The pause-wait loop `while self.is_paused and not self.is_cancelled:
time.sleep(0.1)` (lines 129-130 and 164-165). Each test of the loop
condition consumes one observation; the loop exits at the first
observation whose condition is false, returning that observation and the
rest of the schedule. -/
def wait_loop : List Flags → Flags × List Flags
  | [] => (⟨false, false⟩, [])
  | f :: rest => if f.is_paused && !f.is_cancelled then wait_loop rest else (f, rest)

/-- The chunk-copy loop shared by `download_segment` (lines 126-134) and
`_download_single` (lines 161-169): for each chunk, first the cancellation
check (`if self.is_cancelled: return`, one observation), then the
pause-wait loop, then—if the chunk is non-empty—the write to the sink and
the increment of the byte counter. Returns the sink contents, the byte
counter, the remaining observation schedule, and whether the loop ran to
completion (`false` means the mid-loop cancellation `return` fired, so
`segment.is_complete = True` at line 136 is never reached). -/
def download_segment_loop :
    List (List Nat) → List Flags → List Nat → Nat → List Nat × Nat × List Flags × Bool
  | [], obs, sink, downloaded => (sink, downloaded, obs, true)
  | chunk :: rest, obs, sink, downloaded =>
    let f := obs.headD ⟨false, false⟩
    if f.is_cancelled then (sink, downloaded, obs.tail, false)
    else
      let w := wait_loop obs.tail
      if chunk.isEmpty then download_segment_loop rest w.2 sink downloaded
      else download_segment_loop rest w.2 (sink ++ chunk) (downloaded + chunk.length)

/-- `_download_single` (lines 153-183), reduced to its terminal
notifications: if opening the streamed request raises, the `except`
branch emits `FAILED`; if the chunk loop is exited by the mid-loop
cancellation `return`, nothing is emitted; otherwise the post-loop check
`if not self.is_cancelled` (line 179, one more flag observation) emits
`COMPLETED`, and emits nothing when the flag is set. -/
def download_single_emissions (raises : Bool) (chunks : List (List Nat))
    (obs : List Flags) : List DownloadStatus :=
  if raises then [DownloadStatus.FAILED]
  else
    let r := download_segment_loop chunks obs [] 0
    if r.2.2.2 then
      if (r.2.2.1.headD ⟨false, false⟩).is_cancelled then []
      else [DownloadStatus.COMPLETED]
    else []

/-- Result of the tail of `_download_multi` (lines 213-232): the contents
written to the destination file (`none` if the merge never ran), the
per-segment temporary sink files remaining on disk afterwards, whether the
scratch directory still exists, and the status emitted through
`download_completed`. -/
structure MultiResult where
  destination : Option (List Nat)
  tempFiles : List (Option (List Nat))
  tempDirExists : Bool
  emitted : DownloadStatus
deriving DecidableEq, Repr

/-- The completion phase of `_download_multi` (lines 213-232): when the
download was not cancelled and every segment reports complete, the merge
appends the sink of segment `i` for `i in range(len(segments))` — skipping
sinks that do not exist — into the destination, then unlinks every file in
the scratch directory, removes the directory and emits `COMPLETED`;
otherwise it emits `FAILED` and touches nothing. -/
def download_multi_finish (is_cancelled : Bool) (segments : List DownloadSegment)
    (sinks : List (Option (List Nat))) : MultiResult :=
  if !is_cancelled && segments.all (fun s => s.is_complete) then
    { destination :=
        some (((List.range segments.length).map
          (fun i => (sinks.getD i none).getD [])).flatten),
      tempFiles := sinks.map (fun _ => none),
      tempDirExists := false,
      emitted := DownloadStatus.COMPLETED }
  else
    { destination := none,
      tempFiles := sinks,
      tempDirExists := true,
      emitted := DownloadStatus.FAILED }

/-- The per-item retry state owned by `DownloadItem` (lines 242-244):
current status, `retry_count` and `max_retries` (always 3 in the source). -/
structure ItemState where
  status : DownloadStatus
  retry_count : Nat
  max_retries : Nat
deriving DecidableEq, Repr

/-- `DownloadItem.download_finished` (lines 343-354): on a `FAILED` result
with `retry_count < max_retries`, increment `retry_count` and schedule
`start_download` again (the returned `Bool` is `true` when that retry
timer was armed); otherwise adopt the reported status as the item's
status. -/
def download_finished (st : ItemState) (result : DownloadStatus) :
    ItemState × Bool :=
  if result = DownloadStatus.FAILED ∧ st.retry_count < st.max_retries then
    ({ st with retry_count := st.retry_count + 1 }, true)
  else
    ({ st with status := result }, false)

/-- Feeds a sequence of per-attempt worker results through
`download_finished`: after each result, if a retry was scheduled the next
attempt's result is consumed, otherwise the item stops in the adopted
terminal state. Returns the final item state and whether a retry is still
pending when the supplied results run out. -/
def run_attempts : ItemState → List DownloadStatus → ItemState × Bool
  | st, [] => (st, false)
  | st, r :: rest =>
    let step := download_finished st r
    if step.2 then
      match rest with
      | [] => (step.1, true)
      | _ :: _ => run_attempts step.1 rest
    else (step.1, false)

/-- The environment a probe runs against: whether the FTP connection
raises and the `SIZE` reply (for `_get_ftp_info`, lines 90-105), and
whether the HTTP metadata request raises, the `Content-Length` header and
whether `Accept-Ranges` equals `bytes` (for the HTTP branch of
`get_file_info`, lines 74-88). -/
structure ProbeEnv where
  ftpRaises : Bool
  ftpSize : Option Nat
  httpRaises : Bool
  contentLength : Option Nat
  acceptRangesBytes : Bool
deriving DecidableEq, Repr

/-- `DownloadWorker._get_ftp_info` (lines 90-105): on success, sets
`total_size` to the `SIZE` reply (`or 0`) and returns `True`; the bare
`except` swallows any error and returns `False`, leaving `total_size` at
its initial 0. -/
def get_ftp_info (env : ProbeEnv) : Nat × Bool :=
  if env.ftpRaises then (0, false)
  else (env.ftpSize.getD 0, true)

/-- Python's `url.startswith('ftp://')` (line 72). -/
def url_startswith_ftp (url : String) : Bool :=
  ("ftp://".data).isPrefixOf url.data

/-- `DownloadWorker.get_file_info` (lines 69-88), returning the resulting
`(total_size, supports_range)` pair: FTP URLs go through `_get_ftp_info`;
for HTTP(S), `total_size` is taken from `Content-Length` when present and
`supports_range` is `Accept-Ranges == 'bytes'`; any exception is caught,
printed, and reported as `return False` with `total_size` left at 0. -/
def get_file_info (url : String) (env : ProbeEnv) : Nat × Bool :=
  if url_startswith_ftp url then get_ftp_info env
  else if env.httpRaises then (0, false)
  else (env.contentLength.getD 0, env.acceptRangesBytes)

/-- Which transfer routine `DownloadWorker.run` dispatches to. -/
inductive DownloadPath where
  | single
  | multi
deriving DecidableEq, Repr

/-- The dispatch in `DownloadWorker.run` (lines 140-148):
`if not supports_range or self.total_size <= 1024*1024` the single-thread
path runs, otherwise the multi-segment path. -/
def run_path (url : String) (env : ProbeEnv) : DownloadPath :=
  let info := get_file_info url env
  if info.2 = false ∨ info.1 ≤ 1024 * 1024 then DownloadPath.single
  else DownloadPath.multi

/-- `DownloadWorker.run` (lines 140-151) reduced to its terminal
notifications: probe via `get_file_info`, dispatch per `run_path`; the
single path behaves as `download_single_emissions`; the multi path plans
segments with `create_segments`, each segment download ends with the
completion flag given by `multiCompleted`, and the completion phase is
`download_multi_finish`. -/
def worker_run (url : String) (segments_count : Nat) (env : ProbeEnv)
    (singleRaises : Bool) (singleChunks : List (List Nat)) (singleObs : List Flags)
    (multiCancelled : Bool) (multiCompleted : List Bool)
    (multiSinks : List (Option (List Nat))) : List DownloadStatus :=
  match run_path url env with
  | DownloadPath.single => download_single_emissions singleRaises singleChunks singleObs
  | DownloadPath.multi =>
    let segs := (create_segments (get_file_info url env).1 segments_count).zipWith
      (fun seg c => { seg with is_complete := c }) multiCompleted
    [(download_multi_finish multiCancelled segs multiSinks).emitted]

/-- The dictionary returned by `AddDownloadDialog.get_download_info`
(lines 436-442): the URL text, the destination text and the value of the
1-16 segments spin box. -/
structure DownloadInfo where
  url : String
  destination : String
  segments : Nat
deriving DecidableEq, Repr

/-- `AddDownloadDialog.get_download_info` (lines 436-442). -/
def get_download_info (urlText destText : String) (segmentsValue : Nat) : DownloadInfo :=
  { url := urlText, destination := destText, segments := segmentsValue }

/-- The constructor arguments a live `DownloadWorker` ends up with
(lines 41-46). -/
structure WorkerInit where
  download_id : String
  url : String
  destination : String
  segments_count : Nat
deriving DecidableEq, Repr

/-- The default of the `segments` parameter of `DownloadWorker.__init__`
(line 41: `segments=4`). -/
def downloadWorker_segments_default : Nat := 4

/-- `DownloadItem.start_download` (lines 290-298): constructs
`DownloadWorker(self.download_id, self.url, self.destination)` — with no
`segments` argument, so the constructor default applies. -/
def start_download_worker (download_id url destination : String) : WorkerInit :=
  { download_id := download_id, url := url, destination := destination,
    segments_count := downloadWorker_segments_default }

/-- `DownloadManager.create_download_item` (lines 530-542): builds
`DownloadItem(download_id, url, destination)` — the call carries no
segment count — and auto-starts it, producing the worker of
`start_download_worker`. -/
def create_download_item (counter : Nat) (url destination : String) : WorkerInit :=
  start_download_worker ("download_" ++ toString (counter + 1)) url destination

/-- `DownloadManager.add_download` (lines 522-528): reads the dialog's
info dict and calls `create_download_item(info['url'],
info['destination'])`, passing the URL and destination only. -/
def add_download (counter : Nat) (info : DownloadInfo) : WorkerInit :=
  create_download_item counter info.url info.destination

/-- The merge loop of `_download_multi` read back: iterating
`i in range(len(contents))` and appending the `i`-th sink's contents
reproduces `contents` itself. -/
theorem merge_range_getD (contents : List (List Nat)) :
    (List.range contents.length).map
      (fun i => ((contents.map some).getD i none).getD []) = contents := by
  apply List.ext_getElem
  · simp
  · intro i h1 h2
    simp [List.getD, List.getElem?_map, List.getElem?_eq_getElem, h2]

/-- Claim C2 (confirmed): for every multi-segment download that was not
cancelled and whose segments all completed, with every segment sink
present on disk, the merge writes to the destination exactly the
concatenation `sink_0 ++ sink_1 ++ ... ++ sink_(n-1)` in ascending
segment-index order (the merge is a pure function of the sink contents,
so the order in which segments finished is irrelevant), and afterwards
every temporary sink is deleted, the scratch directory is removed, and
`COMPLETED` is emitted. -/
theorem multi_merge_ordered (segments : List DownloadSegment) (contents : List (List Nat))
    (hall : segments.all (fun s => s.is_complete) = true)
    (hlen : contents.length = segments.length) :
    (download_multi_finish false segments (contents.map some)).destination
        = some contents.flatten
    ∧ (∀ o ∈ (download_multi_finish false segments (contents.map some)).tempFiles, o = none)
    ∧ (download_multi_finish false segments (contents.map some)).tempDirExists = false
    ∧ (download_multi_finish false segments (contents.map some)).emitted
        = DownloadStatus.COMPLETED := by
  have hcond : (!false && segments.all (fun s => s.is_complete)) = true := by
    simp [hall]
  simp only [download_multi_finish, hcond, if_true]
  refine ⟨?_, ?_, trivial, trivial⟩
  · rw [← hlen, merge_range_getD]
  · intro o ho
    simp only [List.mem_map] at ho
    obtain ⟨x, hx, rfl⟩ := ho
    rfl

/-- Witness for C2: two completed segments with sinks `[1, 2]` and
`[3, 4, 5]` merge to `[1, 2, 3, 4, 5]`. -/
theorem multi_merge_ordered_witness :
    (download_multi_finish false
        [{ start_byte := 0, end_byte := 1, downloaded_bytes := 2, is_complete := true },
         { start_byte := 2, end_byte := 4, downloaded_bytes := 3, is_complete := true }]
        ([[1, 2], [3, 4, 5]].map some)).destination = some [1, 2, 3, 4, 5] :=
  (multi_merge_ordered
    [{ start_byte := 0, end_byte := 1, downloaded_bytes := 2, is_complete := true },
     { start_byte := 2, end_byte := 4, downloaded_bytes := 3, is_complete := true }]
    [[1, 2], [3, 4, 5]] (by decide) (by decide)).1

/-- Claim C3 (code bug): when cancel was requested before the completion
check of `_download_multi`, the status the worker emits is `FAILED`, never
`CANCELLED` — and `DownloadItem.download_finished` then treats that
`FAILED` as a retryable failure, arming a retry of the cancelled download
(`retry_count` goes from 0 to 1 and the retry timer is set). The spec's
requirement that cancellation takes precedence and yields `Cancelled` is
contradicted by the code. -/
theorem cancelled_multi_emits_failed :
    (∀ (segments : List DownloadSegment) (sinks : List (Option (List Nat))),
      (download_multi_finish true segments sinks).emitted = DownloadStatus.FAILED
      ∧ (download_multi_finish true segments sinks).emitted ≠ DownloadStatus.CANCELLED)
    ∧ download_finished ⟨DownloadStatus.DOWNLOADING, 0, 3⟩ DownloadStatus.FAILED
        = (⟨DownloadStatus.DOWNLOADING, 1, 3⟩, true) := by
  constructor
  · intro segments sinks
    constructor
    · simp [download_multi_finish]
    · simp [download_multi_finish]
  · decide

/-- Counterexample to claim C4: with `max_retries = 3`, after exactly three
failed attempts the item has scheduled yet another retry (`retry_count` is
3 and the retry timer is armed) and its status is still `DOWNLOADING` —
not the terminal `FAILED` the claim requires. -/
theorem retry_three_failures_not_terminal :
    run_attempts ⟨DownloadStatus.DOWNLOADING, 0, 3⟩
        [DownloadStatus.FAILED, DownloadStatus.FAILED, DownloadStatus.FAILED]
      = (⟨DownloadStatus.DOWNLOADING, 3, 3⟩, true)
    ∧ (run_attempts ⟨DownloadStatus.DOWNLOADING, 0, 3⟩
        [DownloadStatus.FAILED, DownloadStatus.FAILED, DownloadStatus.FAILED]).1.status
        ≠ DownloadStatus.FAILED := by decide

/-- Claim C4 (corrected): with `max_retries = 3`, an item whose attempts
fail exactly `max_retries - 1 = 2` times and then succeed ends `COMPLETED`
with `retry_count = 2` (this half of the claim holds); but an item whose
attempts fail `max_retries = 3` times has another retry scheduled rather
than ending `FAILED` — the terminal `FAILED` state is reached only after
`max_retries + 1 = 4` failed attempts, with `retry_count = 3`. -/
theorem retry_policy_amended :
    run_attempts ⟨DownloadStatus.DOWNLOADING, 0, 3⟩
        [DownloadStatus.FAILED, DownloadStatus.FAILED, DownloadStatus.COMPLETED]
      = (⟨DownloadStatus.COMPLETED, 2, 3⟩, false)
    ∧ run_attempts ⟨DownloadStatus.DOWNLOADING, 0, 3⟩
        [DownloadStatus.FAILED, DownloadStatus.FAILED, DownloadStatus.FAILED,
         DownloadStatus.FAILED]
      = (⟨DownloadStatus.FAILED, 3, 3⟩, false)
    ∧ run_attempts ⟨DownloadStatus.DOWNLOADING, 0, 3⟩
        [DownloadStatus.FAILED, DownloadStatus.FAILED, DownloadStatus.FAILED]
      = (⟨DownloadStatus.DOWNLOADING, 3, 3⟩, true) := by decide

/-- Counterexample to claim C5: at a concrete input where the HTTP
metadata request raises (the server actually stores a range-capable 5 MB
file), `get_file_info` swallows the exception and returns
`(0, supports_range = false)`, `run` dispatches to the single-thread path
as if the server merely lacked range support, and — the subsequent plain
GET succeeding — the job ends `COMPLETED`, not `FAILED`. -/
theorem probe_error_not_surfaced :
    get_file_info "http://example.com/file.bin"
        ⟨false, none, true, some 5242880, true⟩ = (0, false)
    ∧ run_path "http://example.com/file.bin"
        ⟨false, none, true, some 5242880, true⟩ = DownloadPath.single
    ∧ worker_run "http://example.com/file.bin" 4
        ⟨false, none, true, some 5242880, true⟩ false [[1], [2]] [] false [] []
      = [DownloadStatus.COMPLETED]
    ∧ DownloadStatus.COMPLETED ≠ DownloadStatus.FAILED := by decide

/-- Claim C5 (corrected): a failed probe is swallowed, not surfaced:
whenever the HTTP metadata request raises, `get_file_info` returns
`(total_size = 0, supports_range = false)` and the worker proceeds down
the single-segment path exactly as for a server without range support;
the job fails only if the subsequent single download itself raises. -/
theorem probe_error_swallowed (url : String) (env : ProbeEnv)
    (hftp : url_startswith_ftp url = false) (hr : env.httpRaises = true)
    (singleRaises : Bool) (chunks : List (List Nat)) (obs : List Flags)
    (segments_count : Nat) (multiCancelled : Bool) (multiCompleted : List Bool)
    (multiSinks : List (Option (List Nat))) :
    get_file_info url env = (0, false)
    ∧ run_path url env = DownloadPath.single
    ∧ worker_run url segments_count env singleRaises chunks obs
        multiCancelled multiCompleted multiSinks
      = download_single_emissions singleRaises chunks obs
    ∧ (singleRaises = true →
        worker_run url segments_count env singleRaises chunks obs
          multiCancelled multiCompleted multiSinks
        = [DownloadStatus.FAILED]) := by
  have h1 : get_file_info url env = (0, false) := by
    simp [get_file_info, hftp, hr]
  have h2 : run_path url env = DownloadPath.single := by
    simp [run_path, h1]
  refine ⟨h1, h2, ?_, ?_⟩
  · simp [worker_run, h2]
  · intro hsr
    simp [worker_run, h2, download_single_emissions, hsr]

/-- Witness for C5 (amended): a probe that raises followed by a single
download that raises emits exactly `[FAILED]`. -/
theorem probe_error_swallowed_witness :
    worker_run "http://a/b" 4 ⟨false, none, true, none, false⟩ true [] [] false [] []
      = [DownloadStatus.FAILED] :=
  (probe_error_swallowed "http://a/b" ⟨false, none, true, none, false⟩
    (by decide) rfl true [] [] 4 false [] []).2.2.2 rfl

/-- Claim C6 (code bug): for an `ftp://` URL whose `SIZE` query succeeds
on a 2 MiB file, `_get_ftp_info` returns `True` — which `run` interprets
as `supports_range` — so the worker enters the multi-segment path,
contradicting the design that FTP sources are single-segment streamed and
never range-partitioned. -/
theorem ftp_probe_enters_multi :
    get_file_info "ftp://example.com/big.bin"
        ⟨false, some 2097152, false, none, false⟩ = (2097152, true)
    ∧ run_path "ftp://example.com/big.bin"
        ⟨false, some 2097152, false, none, false⟩ = DownloadPath.multi
    ∧ DownloadPath.multi ≠ DownloadPath.single := by decide

/-- Claim C7 (code bug): the segment count entered in the dialog (1-16) is
returned by `get_download_info` but dropped by
`DownloadManager.add_download` / `create_download_item`, so the worker is
always constructed with the `segments=4` default — here the user requested
8 segments and the worker uses 4. -/
theorem dialog_segments_dropped :
    (∀ (counter requested : Nat) (u d : String),
      (add_download counter (get_download_info u d requested)).segments_count = 4)
    ∧ (get_download_info "http://example.com/f.bin" "/home/user/f.bin" 8).segments = 8
    ∧ (add_download 0
        (get_download_info "http://example.com/f.bin" "/home/user/f.bin" 8)).segments_count
        ≠ 8 := by
  refine ⟨?_, rfl, by decide⟩
  intro counter requested u d
  rfl

/-- Counterexample to claim C8: a single-path run that is cancelled after
its first chunk emits no terminal notification at all — the mid-loop
cancellation `return` skips both `COMPLETED` and `FAILED` emissions — so
"exactly one terminal notification per run" fails for cancelled runs. -/
theorem cancelled_single_emits_nothing :
    download_single_emissions false [[1], [2]]
        [⟨false, false⟩, ⟨false, false⟩, ⟨false, true⟩] = []
    ∧ (download_single_emissions false [[1], [2]]
        [⟨false, false⟩, ⟨false, false⟩, ⟨false, true⟩]).length ≠ 1 := by decide

/-- If no observation in the schedule shows the cancel flag set, the
pause-wait loop hands back a schedule in which none does either. -/
theorem wait_loop_no_cancel (obs : List Flags) (h : ∀ f ∈ obs, f.is_cancelled = false) :
    ∀ f ∈ (wait_loop obs).2, f.is_cancelled = false := by
  induction obs with
  | nil => simp [wait_loop]
  | cons f rest ih =>
    simp only [wait_loop]
    by_cases hc : (f.is_paused && !f.is_cancelled) = true
    · simp only [if_pos hc]
      exact ih (fun g hg => h g (List.mem_cons_of_mem f hg))
    · simp only [if_neg hc]
      intro g hg
      exact h g (List.mem_cons_of_mem f hg)

/-- If the cancel flag is never observed set, the chunk-copy loop runs to
completion, and the remaining schedule still never shows it set. -/
theorem download_segment_loop_no_cancel (chunks : List (List Nat)) :
    ∀ (obs : List Flags) (sink : List Nat) (n : Nat),
      (∀ f ∈ obs, f.is_cancelled = false) →
      (download_segment_loop chunks obs sink n).2.2.2 = true
      ∧ ∀ f ∈ (download_segment_loop chunks obs sink n).2.2.1, f.is_cancelled = false := by
  induction chunks with
  | nil =>
    intro obs sink n h
    exact ⟨rfl, h⟩
  | cons c rest ih =>
    intro obs sink n h
    have hhead : (obs.headD ⟨false, false⟩).is_cancelled = false := by
      cases obs with
      | nil => rfl
      | cons f t => exact h f (List.mem_cons_self f t)
    have htail : ∀ f ∈ obs.tail, f.is_cancelled = false := by
      cases obs with
      | nil => simp
      | cons f t =>
        intro g hg
        exact h g (List.mem_cons_of_mem f hg)
    have hw := wait_loop_no_cancel obs.tail htail
    simp only [download_segment_loop, hhead, Bool.false_eq_true, if_false]
    by_cases he : c.isEmpty = true
    · simp only [if_pos he]
      exact ih (wait_loop obs.tail).2 sink n hw
    · simp only [if_neg he]
      exact ih (wait_loop obs.tail).2 (sink ++ c) (n + c.length) hw

/-- Claim C8 (corrected): the multi-segment completion phase emits exactly
one terminal status per run — always `COMPLETED` or `FAILED` (never
`CANCELLED`) — and a single-path run emits exactly one terminal status
provided the cancel flag is never observed set during the run; a
cancelled single-path run emits none (see the counterexample). -/
theorem terminal_emission_per_run (raises : Bool) (chunks : List (List Nat))
    (obs : List Flags) (h : ∀ f ∈ obs, f.is_cancelled = false) :
    (download_single_emissions raises chunks obs).length = 1
    ∧ ∀ (c : Bool) (segments : List DownloadSegment)
        (sinks : List (Option (List Nat))),
        (download_multi_finish c segments sinks).emitted = DownloadStatus.COMPLETED
        ∨ (download_multi_finish c segments sinks).emitted = DownloadStatus.FAILED := by
  constructor
  · cases raises with
    | true => simp [download_single_emissions]
    | false =>
      obtain ⟨hfin, hrest⟩ := download_segment_loop_no_cancel chunks obs [] 0 h
      have hh : ((download_segment_loop chunks obs [] 0).2.2.1.headD
          ⟨false, false⟩).is_cancelled = false := by
        cases hr : (download_segment_loop chunks obs [] 0).2.2.1 with
        | nil => rfl
        | cons f t =>
          exact hrest f (by rw [hr]; exact List.mem_cons_self f t)
      have hh2 : ((download_segment_loop chunks obs [] 0).2.2.1.head?.getD
          ⟨false, false⟩).is_cancelled = false := by
        cases hr : (download_segment_loop chunks obs [] 0).2.2.1 with
        | nil => rfl
        | cons f t =>
          exact hrest f (by rw [hr]; exact List.mem_cons_self f t)
      simp [download_single_emissions, hfin, hh, hh2]
  · intro c segments sinks
    by_cases hc : (!c && segments.all (fun s => s.is_complete)) = true
    · left
      simp [download_multi_finish, hc]
    · right
      simp [download_multi_finish, hc]

/-- Witness for C8 (amended): an uncancelled single-path run over one
chunk emits exactly one terminal notification. -/
theorem terminal_emission_per_run_witness :
    (download_single_emissions false [[1]] [⟨false, false⟩, ⟨false, false⟩]).length = 1 :=
  (terminal_emission_per_run false [[1]] [⟨false, false⟩, ⟨false, false⟩] (by decide)).1

/-- Counterexample to claim C9: after cancellation of a multi-segment
download that had already deposited bytes `[1, 2, 3]` in its segment sink,
the sink file is still present and the scratch directory still exists —
no temporary artifact is removed. -/
theorem cancelled_multi_keeps_artifacts :
    download_multi_finish true
        [{ start_byte := 0, end_byte := 1048575, downloaded_bytes := 12345,
           is_complete := false }] [some [1, 2, 3]]
      = { destination := none, tempFiles := [some [1, 2, 3]], tempDirExists := true,
          emitted := DownloadStatus.FAILED }
    ∧ (download_multi_finish true
        [{ start_byte := 0, end_byte := 1048575, downloaded_bytes := 12345,
           is_complete := false }] [some [1, 2, 3]]).tempDirExists ≠ false
    ∧ (download_multi_finish true
        [{ start_byte := 0, end_byte := 1048575, downloaded_bytes := 12345,
           is_complete := false }] [some [1, 2, 3]]).tempFiles ≠ [none] := by decide

/-- Claim C9 (corrected): `_download_multi` performs no cleanup after
cancellation: for every cancelled run the per-segment sink files are left
untouched, the scratch directory remains, and nothing is written to the
destination — cleanup happens only on the fully-successful-merge path. -/
theorem cancelled_multi_no_cleanup (segments : List DownloadSegment)
    (sinks : List (Option (List Nat))) :
    (download_multi_finish true segments sinks).tempFiles = sinks
    ∧ (download_multi_finish true segments sinks).tempDirExists = true
    ∧ (download_multi_finish true segments sinks).destination = none := by
  refine ⟨?_, ?_, ?_⟩ <;> simp [download_multi_finish]

/-- Counterexample to claim C10: the fetcher holds chunk `[7]`, enters the
pause wait (observation `⟨paused, not cancelled⟩`), and cancel is then set
while it is paused (observation `⟨paused, cancelled⟩`). The wait loop
exits, but the fetcher still writes the pending chunk and bumps its byte
counter from 0 to 1 before stopping at the next iteration's cancellation
check — not "without writing any further chunk or incrementing its byte
counter" as the claim states. -/
theorem pause_cancel_writes_pending_chunk :
    download_segment_loop [[7], [9]]
        [⟨false, false⟩, ⟨true, false⟩, ⟨true, true⟩, ⟨true, true⟩] [] 0
      = ([7], 1, [], false)
    ∧ (download_segment_loop [[7], [9]]
        [⟨false, false⟩, ⟨true, false⟩, ⟨true, true⟩, ⟨true, true⟩] [] 0).2.1 ≠ 0
    ∧ (download_segment_loop [[7], [9]]
        [⟨false, false⟩, ⟨true, false⟩, ⟨true, true⟩, ⟨true, true⟩] [] 0).1 ≠ [] := by decide

/-- Spinning in the pause-wait loop consumes the paused observations. -/
theorem wait_loop_replicate_paused (k : Nat) (obs : List Flags) :
    wait_loop (List.replicate k ⟨true, false⟩ ++ obs) = wait_loop obs := by
  induction k with
  | zero => rfl
  | succ k ih => simpa [List.replicate_succ, wait_loop] using ih

/-- Claim C10 (corrected): setting the cancel flag while the fetcher is
suspended in its pause-wait loop does make the wait loop exit, but the
fetcher then writes the one chunk it was holding — its sink grows by that
chunk and its byte counter by the chunk's length — and stops at the next
iteration's cancellation checkpoint, fetching nothing further. -/
theorem pause_cancel_one_more_chunk (chunk next : List Nat) (rest : List (List Nat))
    (k downloaded : Nat) (sink : List Nat) (hc : chunk ≠ []) :
    wait_loop (List.replicate k ⟨true, false⟩ ++ [⟨true, true⟩, ⟨true, true⟩])
      = (⟨true, true⟩, [⟨true, true⟩])
    ∧ download_segment_loop (chunk :: next :: rest)
        (⟨false, false⟩ :: (List.replicate k ⟨true, false⟩ ++ [⟨true, true⟩, ⟨true, true⟩]))
        sink downloaded
      = (sink ++ chunk, downloaded + chunk.length, [], false) := by
  have hne : chunk.isEmpty = false := by
    cases chunk with
    | nil => simp at hc
    | cons a t => rfl
  have hw : wait_loop (List.replicate k ⟨true, false⟩ ++ [⟨true, true⟩, ⟨true, true⟩])
      = (⟨true, true⟩, [⟨true, true⟩]) := by
    rw [wait_loop_replicate_paused]
    rfl
  refine ⟨hw, ?_⟩
  simp [download_segment_loop, hw, hne]

/-- Witness for C10 (amended): a fetcher holding chunk `[5]` that is
cancelled during a two-tick pause writes exactly that chunk and stops. -/
theorem pause_cancel_one_more_chunk_witness :
    download_segment_loop [[5], [6]]
        (⟨false, false⟩ :: (List.replicate 2 ⟨true, false⟩ ++ [⟨true, true⟩, ⟨true, true⟩]))
        [] 0
      = ([5], 1, [], false) :=
  (pause_cancel_one_more_chunk [5] [6] [] 2 0 [] (by decide)).2
